import Mathlib

/-!
Shallow embedding of the eta compile-cache-render pipeline:
`src/unnamed/part_000` (the string-template `render` module) and
`src/lib/file-handlers.ts` (file-based rendering).

The template cache (`config.templates`, a `Cacher`) is shared mutable
state in the source; here it is threaded explicitly through every
operation as part of a state record `St`.  `St` additionally carries
`compiles`, a counter incremented at every invocation of the Compiler
boundary — the "compile-count spy on the Compiler boundary" of the
spec's testable properties; it influences no control flow.

External collaborators (`compile`, `readFile`, `getPath`) are black
boxes per the spec and live in an `Env` record of pure fallible
functions; a thrown JS exception is `Except.error`.
-/

namespace Eta

/-- A thrown error (`EtaErr` in the source) carrying its message. -/
structure Err where
  msg : String
deriving DecidableEq, Repr

/-- Caller-supplied configuration overrides (`PartialConfig` in
`config.ts`): every field optional, `none` meaning absent. Only the
fields the modelled control flow inspects are kept. -/
structure PartConfig where
  cache : Option Bool := none
  async : Option Bool := none
  name : Option String := none
  filename : Option String := none
  views : Option String := none
deriving DecidableEq, Repr

/-- The Express-style `settings` sub-object optionally carried by a
data argument (`data.settings`): `views`, `"view cache"`,
`"view options"`. -/
structure SettingsObj where
  views : Option String := none
  viewCache : Bool := false
  viewOptions : Option PartConfig := none
deriving Repr

/-- A data context (`DataObj`).  `asConfig` is the config-like fields
of the object, used when the data object is cast to a `PartialConfig`
(the `renderFile(filename, dataAndConfig, cb)` shape); `settings` is
the Express settings sub-object; `vars` the template variables. -/
structure DataObj where
  asConfig : PartConfig := {}
  settings : Option SettingsObj := none
  vars : List (String × String) := []
deriving Repr

/-- The effective configuration (`EtaConfig`): all fields resolved.
The `templates` cache reference is not a field here; it is the
process-wide state `St`, matching the spec's rule that the cache store
always comes from the base configuration, never a per-call override. -/
structure EtaConfig where
  cache : Bool
  async : Bool
  name : Option String
  filename : Option String
  views : Option String
deriving DecidableEq, Repr

/-- Built-in default configuration: caching off, synchronous. -/
def defaultConfig : EtaConfig :=
  { cache := false, async := false, name := none, filename := none, views := none }

/-- JS truthiness of an optional string field (`undefined` and the
empty string are falsy). -/
def optStrTruthy : Option String → Bool
  | none => false
  | some s => s != ""

/-- Modelled from the spec: `copyProps` (utils.ts, not under src/) is a
thin utility copying every own property of the second object onto the
first; here, each present override field replaces the base field. -/
def applyPartial (base : EtaConfig) (p : PartConfig) : EtaConfig :=
  { cache := p.cache.getD base.cache
    async := p.async.getD base.async
    name := match p.name with | some n => some n | none => base.name
    filename := match p.filename with | some f => some f | none => base.filename
    views := match p.views with | some v => some v | none => base.views }

/-- Modelled from the spec: `getConfig` (config.ts, not under src/)
merges built-in defaults, the process-wide base configuration and the
call-site overrides in precedence order, later layers overwriting
earlier ones key by key. -/
def getConfig (override : PartConfig) : EtaConfig :=
  applyPartial defaultConfig override

/-- Modelled from the spec: two-argument `getConfig(override, base)`
used for includes — merges the overrides over the parent
configuration. -/
def getConfigIn (override : PartConfig) (base : EtaConfig) : EtaConfig :=
  applyPartial base override

/-- View a full configuration as a partial one (TypeScript structural
typing lets `loadFile` receive a full `EtaConfig` where a
`PartialConfigWithFilename` is expected). -/
def EtaConfig.toPartial (c : EtaConfig) : PartConfig :=
  { cache := some c.cache, async := some c.async, name := c.name
    filename := c.filename, views := c.views }

/-- A compiled Template Function: invoked with a data context and the
effective configuration, it returns the rendered string or throws.
(The source's optional third callback argument is modelled at the
delivery layer: the invoker routes this result to the callback.) -/
abbrev TmplFn := DataObj → EtaConfig → Except Err String

/-- The Template Cache (`Cacher` in the source): a key → Template
Function mapping; `define` overwrites unconditionally. -/
structure Cacher where
  entries : List (String × TmplFn)

/-- `templates.get(key)`. -/
def Cacher.get (c : Cacher) (k : String) : Option TmplFn :=
  (c.entries.find? (fun p => p.1 == k)).map (fun p => p.2)

/-- `templates.define(key, fn)`: unconditional overwrite (the newest
entry shadows older ones). -/
def Cacher.define (c : Cacher) (k : String) (f : TmplFn) : Cacher :=
  ⟨(k, f) :: c.entries⟩

/-- Process-wide mutable state: the shared template cache, plus the
compile-count spy on the Compiler boundary. -/
structure St where
  templates : Cacher
  compiles : Nat

/-- Record one invocation of the Compiler boundary. -/
def St.bump (st : St) : St := { st with compiles := st.compiles + 1 }

/-- The external collaborators, per the spec black boxes: the
Compiler (`compile(source, config)`), the file reader
(`readFile(path)`) and the path resolver (`getPath(path, config)`);
each may fail. -/
structure Env where
  compile : String → EtaConfig → Except Err TmplFn
  readFile : String → Except Err String
  getPath : String → EtaConfig → Except Err String

/-- The observable way a render call delivers its result to the
caller: a string returned directly, an error thrown synchronously, a
callback invoked with `(err, str)`, or a returned promise that
resolves or rejects. -/
inductive Outcome where
  | returned (s : String)
  | thrown (e : Err)
  | callback (r : Except Err String)
  | promise (r : Except Err String)
deriving Repr

instance : DecidableEq (Except Err String) := fun a b =>
  match a, b with
  | Except.ok x, Except.ok y =>
    if h : x = y then isTrue (by rw [h]) else isFalse (fun hc => by cases hc; exact h rfl)
  | Except.error x, Except.error y =>
    if h : x = y then isTrue (by rw [h]) else isFalse (fun hc => by cases hc; exact h rfl)
  | Except.ok _, Except.error _ => isFalse (fun hc => by cases hc)
  | Except.error _, Except.ok _ => isFalse (fun hc => by cases hc)

instance : DecidableEq Outcome := fun a b =>
  match a, b with
  | Outcome.returned x, Outcome.returned y =>
    if h : x = y then isTrue (by rw [h]) else isFalse (fun hc => by cases hc; exact h rfl)
  | Outcome.thrown x, Outcome.thrown y =>
    if h : x = y then isTrue (by rw [h]) else isFalse (fun hc => by cases hc; exact h rfl)
  | Outcome.callback x, Outcome.callback y =>
    if h : x = y then isTrue (by rw [h]) else isFalse (fun hc => by cases hc; exact h rfl)
  | Outcome.promise x, Outcome.promise y =>
    if h : x = y then isTrue (by rw [h]) else isFalse (fun hc => by cases hc; exact h rfl)
  | Outcome.returned _, Outcome.thrown _ => isFalse (fun hc => by cases hc)
  | Outcome.returned _, Outcome.callback _ => isFalse (fun hc => by cases hc)
  | Outcome.returned _, Outcome.promise _ => isFalse (fun hc => by cases hc)
  | Outcome.thrown _, Outcome.returned _ => isFalse (fun hc => by cases hc)
  | Outcome.thrown _, Outcome.callback _ => isFalse (fun hc => by cases hc)
  | Outcome.thrown _, Outcome.promise _ => isFalse (fun hc => by cases hc)
  | Outcome.callback _, Outcome.returned _ => isFalse (fun hc => by cases hc)
  | Outcome.callback _, Outcome.thrown _ => isFalse (fun hc => by cases hc)
  | Outcome.callback _, Outcome.promise _ => isFalse (fun hc => by cases hc)
  | Outcome.promise _, Outcome.returned _ => isFalse (fun hc => by cases hc)
  | Outcome.promise _, Outcome.thrown _ => isFalse (fun hc => by cases hc)
  | Outcome.promise _, Outcome.callback _ => isFalse (fun hc => by cases hc)

namespace RenderTs

/-- `handleCache` of the string-render module (src/unnamed/part_000
lines 12–30): on a cache hit (caching on, truthy `name`, registered)
return the cached function; otherwise use the supplied function or
compile the string, then register it when caching is on and `name` is
truthy. -/
def handleCache (env : Env) (template : String ⊕ TmplFn) (options : EtaConfig)
    (st : St) : Except Err TmplFn × St :=
  let nameKey := options.name.getD ""
  let hit : Option TmplFn :=
    if options.cache && optStrTruthy options.name then st.templates.get nameKey
    else none
  match hit with
  | some f => (Except.ok f, st)
  | none =>
    let compiled : Except Err TmplFn × St :=
      match template with
      | Sum.inr f => (Except.ok f, st)
      | Sum.inl src => (env.compile src options, st.bump)
    match compiled with
    | (Except.error e, st1) => (Except.error e, st1)
    | (Except.ok templateFunc, st1) =>
      if options.cache && optStrTruthy options.name then
        (Except.ok templateFunc,
         { st1 with templates := st1.templates.define nameKey templateFunc })
      else (Except.ok templateFunc, st1)

/-- `render` (src/unnamed/part_000 lines 51–81): resolve the config;
in async mode deliver through the callback (if supplied) or a promise,
catching synchronous throws; in sync mode call the function and return
the string directly, propagating throws. -/
def render (env : Env) (template : String ⊕ TmplFn) (data : DataObj)
    (config : Option PartConfig) (cb : Bool) (st : St) : Outcome × St :=
  let options := getConfig (config.getD {})
  if options.async then
    if cb then
      match handleCache env template options st with
      | (Except.ok f, st1) => (Outcome.callback (f data options), st1)
      | (Except.error e, st1) => (Outcome.callback (Except.error e), st1)
    else
      match handleCache env template options st with
      | (Except.ok f, st1) => (Outcome.promise (f data options), st1)
      | (Except.error e, st1) => (Outcome.promise (Except.error e), st1)
  else
    match handleCache env template options st with
    | (Except.ok f, st1) =>
      (match f data options with
       | Except.ok s => (Outcome.returned s, st1)
       | Except.error e => (Outcome.thrown e, st1))
    | (Except.error e, st1) => (Outcome.thrown e, st1)

/-- `renderAsync` (src/unnamed/part_000 lines 99–107):
`render(template, data, Object.assign({}, config, {async: true}), cb)`. -/
def renderAsync (env : Env) (template : String ⊕ TmplFn) (data : DataObj)
    (config : Option PartConfig) (cb : Bool) (st : St) : Outcome × St :=
  render env template data (some { config.getD {} with async := some true }) cb st

end RenderTs

namespace FileHandlers

/-- `loadFile` (src/lib/file-handlers.ts lines 42–63): resolve config,
read the file (read errors propagate unwrapped — the read happens
before the try block), compile; a compile error is re-thrown wrapped
as `Loading file: <path> failed:\n\n<cause>`; register under
`config.filename` unless `noCache`. -/
def loadFile (env : Env) (filePath : String) (options : PartConfig)
    (noCache : Bool) (st : St) : Except Err TmplFn × St :=
  let config := getConfig options
  match env.readFile filePath with
  | Except.error e => (Except.error e, st)
  | Except.ok template =>
    match env.compile template config with
    | Except.error e =>
      (Except.error ⟨"Loading file: " ++ filePath ++ " failed:\n\n" ++ e.msg⟩,
       st.bump)
    | Except.ok compiledTemplate =>
      if !noCache then
        (Except.ok compiledTemplate,
         { st.bump with
             templates := st.bump.templates.define (config.filename.getD "")
               compiledTemplate })
      else (Except.ok compiledTemplate, st.bump)

/-- `handleCache` of the file module (src/lib/file-handlers.ts lines
76–90): with caching on, return the entry registered under
`options.filename` if any, else `loadFile` (which registers); with
caching off, `loadFile` with `noCache = true`.  (The source's
`EtaConfigWithFilename` type guarantees `filename` is set; callers
always set it.) -/
def handleCache (env : Env) (options : EtaConfig) (st : St) :
    Except Err TmplFn × St :=
  let filename := options.filename.getD ""
  if options.cache then
    match st.templates.get filename with
    | some f => (Except.ok f, st)
    | none => loadFile env filename options.toPartial false st
  else
    loadFile env filename options.toPartial true st

/-- `tryHandleCache` (src/lib/file-handlers.ts lines 102–127): with a
callback, fetch-compile-cache then invoke passing the callback
through, delivering any synchronous throw to the callback; without
one, do the same inside a new promise, resolving or rejecting. -/
def tryHandleCache (env : Env) (data : DataObj) (options : EtaConfig)
    (cb : Bool) (st : St) : Outcome × St :=
  if cb then
    match handleCache env options st with
    | (Except.ok templateFn, st1) => (Outcome.callback (templateFn data options), st1)
    | (Except.error e, st1) => (Outcome.callback (Except.error e), st1)
  else
    match handleCache env options st with
    | (Except.ok templateFn, st1) => (Outcome.promise (templateFn data options), st1)
    | (Except.error e, st1) => (Outcome.promise (Except.error e), st1)

/-- `includeFile` (src/lib/file-handlers.ts lines 146–157): build a
child configuration whose `filename` is the include path resolved
against the parent configuration, then run the cache-lookup algorithm,
returning the function together with that configuration. -/
def includeFile (env : Env) (path : String) (options : EtaConfig) (st : St) :
    Except Err (TmplFn × EtaConfig) × St :=
  match env.getPath path options with
  | Except.error e => (Except.error e, st)
  | Except.ok p =>
    let newFileOptions := getConfigIn { filename := some p } options
    match handleCache env newFileOptions st with
    | (Except.ok f, st1) => (Except.ok (f, newFileOptions), st1)
    | (Except.error e, st1) => (Except.error e, st1)

/-- The shape of `renderFile`'s third argument: an explicit config
object, a callback function in the config position, or absent. -/
inductive ConfigArg where
  | obj (c : PartConfig)
  | fnArg
  | absent
deriving DecidableEq, Repr

/-- The config-resolution prefix of `renderFile` (src/lib/
file-handlers.ts lines 228–254): an explicit config object wins
outright; otherwise the config is read from the data object and
`data.settings` (`views`, `"view cache"`, `"view options"`) is folded
in. -/
def resolveRenderConfig (data : DataObj) (config : ConfigArg) : EtaConfig :=
  match config with
  | ConfigArg.obj c => getConfig c
  | _ =>
    let renderConfig := getConfig data.asConfig
    match data.settings with
    | none => renderConfig
    | some s =>
      let rc1 := if optStrTruthy s.views then { renderConfig with views := s.views }
                 else renderConfig
      let rc2 := if s.viewCache then { rc1 with cache := true } else rc1
      match s.viewOptions with
      | some viewOpts => applyPartial rc2 viewOpts
      | none => rc2

/-- `renderFile` (src/lib/file-handlers.ts lines 199–261): default
absent data to an empty object, pick the callback from the fourth or
third argument, resolve the config, set `filename` via `getPath`
(whose throw propagates synchronously), and hand over to
`tryHandleCache`. -/
def renderFile (env : Env) (filename : String) (data : Option DataObj)
    (config : ConfigArg) (cb : Bool) (st : St) : Outcome × St :=
  let d := data.getD {}
  let callback : Bool :=
    if cb then true
    else match config with
         | ConfigArg.fnArg => true
         | _ => false
  let renderConfig := resolveRenderConfig d config
  match env.getPath filename renderConfig with
  | Except.error e => (Outcome.thrown e, st)
  | Except.ok path =>
    tryHandleCache env d { renderConfig with filename := some path } callback st

/-- `renderFileAsync` (src/lib/file-handlers.ts lines 303–315): spread
`async: true` into the data when the config position holds the
callback, into the config when it holds an object — and into neither
when it is absent. -/
def renderFileAsync (env : Env) (filename : String) (data : Option DataObj)
    (config : ConfigArg) (cb : Bool) (st : St) : Outcome × St :=
  renderFile env filename
    (match config with
     | ConfigArg.fnArg =>
       some { data.getD {} with
                asConfig := { (data.getD {}).asConfig with async := some true } }
     | _ => data)
    (match config with
     | ConfigArg.obj c => ConfigArg.obj { c with async := some true }
     | other => other)
    cb st

end FileHandlers

/-- How a synchronous call delivers an invocation result: the string
is returned directly, an error is thrown. -/
def invokeSync (r : Except Err String) : Outcome :=
  match r with
  | Except.ok s => Outcome.returned s
  | Except.error e => Outcome.thrown e

/-- The result the fetch-compile-cache and invoke steps of the file
pipeline produce (the value `tryHandleCache` delivers, by whichever
channel). -/
def FileHandlers.fetchInvoke (env : Env) (d : DataObj) (opts : EtaConfig)
    (st : St) : Except Err String :=
  match FileHandlers.handleCache env opts st with
  | (Except.ok f, _) => f d opts
  | (Except.error e, _) => Except.error e

/-- Iterate `render` N times, threading the state. -/
def RenderTs.renderN (env : Env) (t : String ⊕ TmplFn) (d : DataObj)
    (c : Option PartConfig) (cb : Bool) : Nat → St → St
  | 0, st => st
  | n + 1, st => RenderTs.renderN env t d c cb n (RenderTs.render env t d c cb st).snd

namespace Wit

/-- A concrete compiled-template shape: renders its source text plus
the effective async flag. -/
def compiledOf (src : String) : TmplFn :=
  fun _ c => Except.ok (src ++ "|" ++ (if c.async then "A" else "S"))

/-- A concrete well-behaved environment: the Compiler yields
`compiledOf`, reads succeed, paths resolve to themselves. -/
def env : Env :=
  { compile := fun src _ => Except.ok (compiledOf src)
    readFile := fun p => Except.ok ("file:" ++ p)
    getPath := fun p _ => Except.ok p }

/-- Empty initial state. -/
def st0 : St := ⟨⟨[]⟩, 0⟩

/-- A concrete cached function, distinguishable from any `compiledOf`. -/
def cachedFn : TmplFn := fun _ _ => Except.ok "cached"

/-- State whose cache already holds `cachedFn` under key `k`. -/
def stK : St := ⟨⟨[("k", cachedFn)]⟩, 0⟩

/-- String-render config: caching on, name `k`. -/
def cfgK : PartConfig := { cache := some true, name := some "k" }

/-- Its effective configuration. -/
def optsK : EtaConfig := getConfig cfgK

/-- File-render effective configuration keyed on filename `k`. -/
def optsFK : EtaConfig :=
  { cache := true, async := false, name := none, filename := some "k", views := none }

/-- Environment whose path resolver always fails. -/
def badEnv : Env := { env with getPath := fun _ _ => Except.error ⟨"path fail"⟩ }

/-- Environment whose Compiler always fails. -/
def badCompileEnv : Env := { env with compile := fun _ _ => Except.error ⟨"syntax error"⟩ }

/-- Overrides with caching explicitly disabled but a filename set. -/
def cfgNoCacheF : PartConfig := { cache := some false, filename := some "f" }

/-- A concrete precompiled Template Function supplied by the caller. -/
def suppliedFn : TmplFn := fun _ _ => Except.ok "supplied"

/-- Data carrying Express settings with `views = "/x"`. -/
def dViews : DataObj := { settings := some { views := some "/x" } }

/-- Explicit config with `views = "/y"`. -/
def cViews : PartConfig := { views := some "/y" }

end Wit

/-- Cache hit in the file `handleCache`: caching on and the filename
registered — the cached function, state untouched. -/
theorem fileHit (env : Env) (opts : EtaConfig) (st : St) (f : TmplFn)
    (h1 : opts.cache = true)
    (h2 : st.templates.get (opts.filename.getD "") = some f) :
    FileHandlers.handleCache env opts st = (Except.ok f, st) := by
  unfold FileHandlers.handleCache
  simp [h1, h2]

/-- Cache miss in the file `handleCache` with caching on: delegate to
`loadFile` with `noCache = false`. -/
theorem fileMiss (env : Env) (opts : EtaConfig) (st : St)
    (h1 : opts.cache = true)
    (h2 : st.templates.get (opts.filename.getD "") = none) :
    FileHandlers.handleCache env opts st =
      FileHandlers.loadFile env (opts.filename.getD "") opts.toPartial false st := by
  unfold FileHandlers.handleCache
  simp [h1, h2]

/-- File `handleCache` with caching off: delegate to `loadFile` with
`noCache = true`. -/
theorem fileOff (env : Env) (opts : EtaConfig) (st : St)
    (h1 : opts.cache = false) :
    FileHandlers.handleCache env opts st =
      FileHandlers.loadFile env (opts.filename.getD "") opts.toPartial true st := by
  unfold FileHandlers.handleCache
  simp [h1]

/-- `tryHandleCache` delivers the fetch-compile-invoke result through
the callback when one was supplied and through a promise otherwise. -/
theorem tryDelivery (env : Env) (d : DataObj) (opts : EtaConfig) (cb : Bool)
    (st : St) :
    FileHandlers.tryHandleCache env d opts cb st =
      ((if cb then Outcome.callback (FileHandlers.fetchInvoke env d opts st)
        else Outcome.promise (FileHandlers.fetchInvoke env d opts st)),
       (FileHandlers.handleCache env opts st).snd) := by
  unfold FileHandlers.tryHandleCache FileHandlers.fetchInvoke
  cases hres : FileHandlers.handleCache env opts st with
  | mk r st1 => cases r <;> cases cb <;> simp [hres]

/-- `loadFile` when read and compile succeed: the compiled function is
returned, registered under the resolved filename exactly when
`noCache` is false — the `cache` flag plays no part. -/
theorem loadFileOk (env : Env) (fp : String) (p : PartConfig) (noCache : Bool)
    (st : St) (t : String) (f : TmplFn)
    (hr : env.readFile fp = Except.ok t)
    (hcmp : env.compile t (getConfig p) = Except.ok f) :
    FileHandlers.loadFile env fp p noCache st =
      (Except.ok f,
       if noCache then st.bump
       else { st.bump with
                templates :=
                  st.bump.templates.define ((getConfig p).filename.getD "") f }) := by
  unfold FileHandlers.loadFile
  cases noCache <;> simp [hr, hcmp]

/-- `loadFile` when the Compiler fails: the wrapped error, nothing
registered. -/
theorem loadFileCompileErr (env : Env) (fp : String) (p : PartConfig)
    (noCache : Bool) (st : St) (t : String) (e : Err)
    (hr : env.readFile fp = Except.ok t)
    (hcmp : env.compile t (getConfig p) = Except.error e) :
    FileHandlers.loadFile env fp p noCache st =
      (Except.error ⟨"Loading file: " ++ fp ++ " failed:\n\n" ++ e.msg⟩, st.bump) := by
  unfold FileHandlers.loadFile
  simp [hr, hcmp]

/-- `loadFile` when the read fails: the read error propagates
unwrapped (the read happens before the try block), nothing changes. -/
theorem loadFileReadErr (env : Env) (fp : String) (p : PartConfig)
    (noCache : Bool) (st : St) (e : Err)
    (hr : env.readFile fp = Except.error e) :
    FileHandlers.loadFile env fp p noCache st = (Except.error e, st) := by
  unfold FileHandlers.loadFile
  simp [hr]

/-- `renderFile` when path resolution fails: the error is thrown
synchronously, whatever the callback situation. -/
theorem renderFilePathErr (env : Env) (fname : String) (dd : Option DataObj)
    (cfgArg : FileHandlers.ConfigArg) (cb : Bool) (st : St) (e : Err)
    (hp : env.getPath fname (FileHandlers.resolveRenderConfig (dd.getD {}) cfgArg) =
      Except.error e) :
    FileHandlers.renderFile env fname dd cfgArg cb st = (Outcome.thrown e, st) := by
  unfold FileHandlers.renderFile
  simp [hp]

/-- `renderFile` when path resolution succeeds: hand over to
`tryHandleCache` with `filename` set, the callback taken from the
fourth argument or the config position. -/
theorem renderFileOk (env : Env) (fname : String) (dd : Option DataObj)
    (cfgArg : FileHandlers.ConfigArg) (cb : Bool) (st : St) (p : String)
    (hp : env.getPath fname (FileHandlers.resolveRenderConfig (dd.getD {}) cfgArg) =
      Except.ok p) :
    FileHandlers.renderFile env fname dd cfgArg cb st =
      FileHandlers.tryHandleCache env (dd.getD {})
        { FileHandlers.resolveRenderConfig (dd.getD {}) cfgArg with filename := some p }
        (if cb then true
         else match cfgArg with
              | FileHandlers.ConfigArg.fnArg => true
              | _ => false) st := by
  unfold FileHandlers.renderFile
  cases cb <;> cases cfgArg <;> simp [hp]

/-- Cache hit in the string `handleCache`: caching on, truthy name,
key registered — the cached function is returned, state untouched. -/
theorem strHit (env : Env) (t : String ⊕ TmplFn) (opts : EtaConfig) (st : St)
    (f : TmplFn) (h1 : opts.cache = true) (h2 : optStrTruthy opts.name = true)
    (h3 : st.templates.get (opts.name.getD "") = some f) :
    RenderTs.handleCache env t opts st = (Except.ok f, st) := by
  unfold RenderTs.handleCache
  simp [h1, h2, h3]

/-- Cache miss in the string `handleCache` with caching on and a
truthy name: compile, register, return. -/
theorem strMissCompile (env : Env) (s : String) (opts : EtaConfig) (st : St)
    (h1 : opts.cache = true) (h2 : optStrTruthy opts.name = true)
    (h3 : st.templates.get (opts.name.getD "") = none) :
    RenderTs.handleCache env (Sum.inl s) opts st =
      (match env.compile s opts with
       | Except.ok f =>
         (Except.ok f,
          { st.bump with templates := st.bump.templates.define (opts.name.getD "") f })
       | Except.error e => (Except.error e, st.bump)) := by
  unfold RenderTs.handleCache
  cases hres : env.compile s opts <;> simp [h1, h2, h3, hres]

/-- String `handleCache` with the registration condition off (caching
disabled or no truthy name): always a fresh compile, no registration. -/
theorem strNoCacheKey (env : Env) (s : String) (opts : EtaConfig) (st : St)
    (h : (opts.cache && optStrTruthy opts.name) = false) :
    RenderTs.handleCache env (Sum.inl s) opts st = (env.compile s opts, st.bump) := by
  unfold RenderTs.handleCache
  cases hres : env.compile s opts <;> simp [h, hres]

/-- String `handleCache` with a precompiled function and the
registration condition off: the function itself, state untouched. -/
theorem strFnNoCacheKey (env : Env) (f : TmplFn) (opts : EtaConfig) (st : St)
    (h : (opts.cache && optStrTruthy opts.name) = false) :
    RenderTs.handleCache env (Sum.inr f) opts st = (Except.ok f, st) := by
  unfold RenderTs.handleCache
  simp [h]

/-- String `handleCache` with a precompiled function, caching on, a
truthy name and no existing entry: register it and return it. -/
theorem strFnRegister (env : Env) (f : TmplFn) (opts : EtaConfig) (st : St)
    (h1 : opts.cache = true) (h2 : optStrTruthy opts.name = true)
    (h3 : st.templates.get (opts.name.getD "") = none) :
    RenderTs.handleCache env (Sum.inr f) opts st =
      (Except.ok f, { st with templates := st.templates.define (opts.name.getD "") f }) := by
  unfold RenderTs.handleCache
  simp [h1, h2, h3]

/-- `render` in synchronous mode: fetch the function and call it,
returning the string or throwing — the callback argument is unused. -/
theorem renderSync (env : Env) (t : String ⊕ TmplFn) (d : DataObj)
    (c : Option PartConfig) (cb : Bool) (st : St)
    (ha : (getConfig (c.getD {})).async = false) :
    RenderTs.render env t d c cb st =
      (match RenderTs.handleCache env t (getConfig (c.getD {})) st with
       | (Except.ok f, st1) => (invokeSync (f d (getConfig (c.getD {}))), st1)
       | (Except.error e, st1) => (Outcome.thrown e, st1)) := by
  unfold RenderTs.render
  cases hres : RenderTs.handleCache env t (getConfig (c.getD {})) st with
  | mk r st1 =>
    cases r with
    | ok f => cases hinv : f d (getConfig (c.getD {})) <;> simp [ha, hres, hinv, invokeSync]
    | error e => simp [ha, hres]

/-- The entry just defined is the one `get` finds. -/
theorem getDefine (ca : Cacher) (k : String) (f : TmplFn) :
    (ca.define k f).get k = some f := by
  simp [Cacher.get, Cacher.define]

/-- C1: with caching enabled and the key (name for string templates,
filename for file templates) already registered, both `handleCache`
variants return the cached Template Function with the state unchanged,
for every newly supplied template source; consequently two successive
string renders under the same name with different sources both produce
output from the function compiled on the first call. -/
theorem c1_cache_hit_wins
    (env : Env) (opts optsF : EtaConfig) (st : St) (k : String) (f : TmplFn)
    (t : String ⊕ TmplFn)
    (hc : opts.cache = true) (hn : opts.name = some k) (hk : k ≠ "")
    (hcF : optsF.cache = true) (hnF : optsF.filename = some k)
    (hget : st.templates.get k = some f)
    (c : PartConfig) (hcfg : getConfig c = opts) (hasync : opts.async = false)
    (s1 s2 : String) (f1 : TmplFn) (stA : St) (d1 d2 : DataObj)
    (hmiss : stA.templates.get k = none)
    (hcomp : env.compile s1 opts = Except.ok f1) :
    RenderTs.handleCache env t opts st = (Except.ok f, st) ∧
    FileHandlers.handleCache env optsF st = (Except.ok f, st) ∧
    (RenderTs.render env (Sum.inl s2) d2 (some c) false
        (RenderTs.render env (Sum.inl s1) d1 (some c) false stA).snd).fst =
      invokeSync (f1 d2 opts) := by
  have h2 : optStrTruthy opts.name = true := by simp [hn, optStrTruthy, hk]
  have hkey : opts.name.getD "" = k := by rw [hn]; rfl
  have hceff : getConfig (((some c : Option PartConfig)).getD {}) = opts := hcfg
  refine ⟨strHit env t opts st f hc h2 (by rw [hkey]; exact hget), ?_, ?_⟩
  · unfold FileHandlers.handleCache
    simp [hcF, hnF, hget]
  · have hfirst : (RenderTs.render env (Sum.inl s1) d1 (some c) false stA).snd =
        { stA.bump with templates := stA.bump.templates.define k f1 } := by
      rw [renderSync env _ d1 (some c) false stA (by rw [hceff]; exact hasync), hceff]
      rw [strMissCompile env s1 opts stA hc h2 (by rw [hkey]; exact hmiss)]
      rw [hcomp, hkey]
    rw [hfirst]
    rw [renderSync env _ d2 (some c) false _ (by rw [hceff]; exact hasync), hceff]
    rw [strHit env (Sum.inl s2) opts _ f1 hc h2 (by rw [hkey]; exact getDefine _ k f1)]

/-- Closed instance of `c1_cache_hit_wins` at concrete inputs. -/
theorem c1_cache_hit_wins_witness :
    RenderTs.handleCache Wit.env (Sum.inl "other source") Wit.optsK Wit.stK =
      (Except.ok Wit.cachedFn, Wit.stK) ∧
    FileHandlers.handleCache Wit.env Wit.optsFK Wit.stK =
      (Except.ok Wit.cachedFn, Wit.stK) ∧
    (RenderTs.render Wit.env (Sum.inl "s2") {} (some Wit.cfgK) false
        (RenderTs.render Wit.env (Sum.inl "s1") {} (some Wit.cfgK) false Wit.st0).snd).fst =
      invokeSync (Wit.compiledOf "s1" {} Wit.optsK) :=
  c1_cache_hit_wins Wit.env Wit.optsK Wit.optsFK Wit.stK "k" Wit.cachedFn
    (Sum.inl "other source") rfl rfl (by decide) rfl rfl rfl
    Wit.cfgK rfl rfl "s1" "s2" (Wit.compiledOf "s1") Wit.st0 {} {} rfl rfl

/-- C2 counterexample: a path-resolution failure in `renderFile` with
a callback supplied is thrown synchronously — not delivered as the
first callback argument, against the claim. -/
theorem c2_counterexample :
    (FileHandlers.renderFile Wit.badEnv "x" (some {}) FileHandlers.ConfigArg.absent
        true Wit.st0).fst = Outcome.thrown ⟨"path fail"⟩ ∧
    (FileHandlers.renderFile Wit.badEnv "x" (some {}) FileHandlers.ConfigArg.absent
        true Wit.st0).fst ≠ Outcome.callback (Except.error ⟨"path fail"⟩) :=
  ⟨rfl, by decide⟩

/-- C2 amended: every error arising inside `tryHandleCache` — file
read, compilation, cache handling, invocation — is delivered through
the callback when one was chosen and through rejection of the returned
promise otherwise; but a path-resolution error raised by `getPath`
inside `renderFile` is thrown synchronously in both modes. -/
theorem c2_uniform_delivery
    (env : Env) (d : DataObj) (opts : EtaConfig) (cb : Bool) (st : St)
    (fname : String) (dd : Option DataObj) (cfgArg : FileHandlers.ConfigArg)
    (cb2 : Bool) (st2 : St) (e : Err)
    (hp : env.getPath fname (FileHandlers.resolveRenderConfig (dd.getD {}) cfgArg) =
      Except.error e) :
    FileHandlers.tryHandleCache env d opts cb st =
      ((if cb then Outcome.callback (FileHandlers.fetchInvoke env d opts st)
        else Outcome.promise (FileHandlers.fetchInvoke env d opts st)),
       (FileHandlers.handleCache env opts st).snd) ∧
    FileHandlers.renderFile env fname dd cfgArg cb2 st2 = (Outcome.thrown e, st2) :=
  ⟨tryDelivery env d opts cb st, renderFilePathErr env fname dd cfgArg cb2 st2 e hp⟩

/-- Closed instance of `c2_uniform_delivery` at concrete inputs. -/
theorem c2_uniform_delivery_witness :
    FileHandlers.tryHandleCache Wit.badEnv {} Wit.optsFK true Wit.stK =
      ((if true then Outcome.callback (FileHandlers.fetchInvoke Wit.badEnv {} Wit.optsFK Wit.stK)
        else Outcome.promise (FileHandlers.fetchInvoke Wit.badEnv {} Wit.optsFK Wit.stK)),
       (FileHandlers.handleCache Wit.badEnv Wit.optsFK Wit.stK).snd) ∧
    FileHandlers.renderFile Wit.badEnv "x" (some {}) FileHandlers.ConfigArg.absent
        false Wit.st0 = (Outcome.thrown ⟨"path fail"⟩, Wit.st0) :=
  c2_uniform_delivery Wit.badEnv {} Wit.optsFK true Wit.stK "x" (some {})
    FileHandlers.ConfigArg.absent false Wit.st0 ⟨"path fail"⟩ rfl

/-- C3 counterexample: `loadFile` called with caching disabled in the
effective configuration but `noCache = false` still registers the
compiled function, against the claim's "otherwise it performs no
registration". -/
theorem c3_counterexample :
    (getConfig Wit.cfgNoCacheF).cache = false ∧
    Wit.st0.templates.get "f" = none ∧
    ((FileHandlers.loadFile Wit.env "f" Wit.cfgNoCacheF false Wit.st0).snd).templates.get "f" =
      some (Wit.compiledOf "file:f") :=
  ⟨rfl, rfl, rfl⟩

/-- C3 amended: when read and compile succeed, `loadFile` registers
the compiled function under the resolved filename key, before
returning it, exactly when the `noCache` argument is false — the
effective configuration's `cache` flag plays no part (its callers pass
`noCache = true` whenever caching is disabled). -/
theorem c3_registration
    (env : Env) (fp : String) (p : PartConfig) (noCache : Bool) (st : St)
    (t : String) (f : TmplFn)
    (hr : env.readFile fp = Except.ok t)
    (hcmp : env.compile t (getConfig p) = Except.ok f) :
    FileHandlers.loadFile env fp p noCache st =
      (Except.ok f,
       if noCache then st.bump
       else { st.bump with
                templates :=
                  st.bump.templates.define ((getConfig p).filename.getD "") f }) :=
  loadFileOk env fp p noCache st t f hr hcmp

/-- Closed instance of `c3_registration` at concrete inputs. -/
theorem c3_registration_witness :
    FileHandlers.loadFile Wit.env "f" Wit.cfgNoCacheF true Wit.st0 =
      (Except.ok (Wit.compiledOf "file:f"),
       if true then Wit.st0.bump
       else { Wit.st0.bump with
                templates :=
                  Wit.st0.bump.templates.define
                    ((getConfig Wit.cfgNoCacheF).filename.getD "")
                    (Wit.compiledOf "file:f") }) :=
  c3_registration Wit.env "f" Wit.cfgNoCacheF true Wit.st0 "file:f"
    (Wit.compiledOf "file:f") rfl rfl

/-- C4 counterexample: with asynchronous mode off and no callback,
`renderFile` does not return the rendered string directly — it returns
a promise (already settled), against the claim. -/
theorem c4_counterexample :
    (getConfig ({} : PartConfig)).async = false ∧
    (FileHandlers.renderFile Wit.env "f" (some {}) FileHandlers.ConfigArg.absent
        false Wit.st0).fst = Outcome.promise (Except.ok "file:f|S") ∧
    (FileHandlers.renderFile Wit.env "f" (some {}) FileHandlers.ConfigArg.absent
        false Wit.st0).fst ≠ Outcome.returned "file:f|S" :=
  ⟨rfl, rfl, by decide⟩

/-- C4 amended: with asynchronous mode off the string entry point
`render` calls the Template Function synchronously and returns its
string directly (or throws), the callback argument being ignored;
`renderFile` without a callback instead always delivers through a
returned promise — settled with the same fetch-invoke result —
whatever the async flag. -/
theorem c4_sync_direct
    (env : Env) (t : String ⊕ TmplFn) (d : DataObj) (c : Option PartConfig)
    (cb : Bool) (st : St)
    (ha : (getConfig (c.getD {})).async = false)
    (fname : String) (dd : Option DataObj) (cfgArg : FileHandlers.ConfigArg)
    (st2 : St) (p : String)
    (hnotfn : cfgArg ≠ FileHandlers.ConfigArg.fnArg)
    (hp : env.getPath fname (FileHandlers.resolveRenderConfig (dd.getD {}) cfgArg) =
      Except.ok p) :
    RenderTs.render env t d c cb st =
      (match RenderTs.handleCache env t (getConfig (c.getD {})) st with
       | (Except.ok f, st1) => (invokeSync (f d (getConfig (c.getD {}))), st1)
       | (Except.error e, st1) => (Outcome.thrown e, st1)) ∧
    (FileHandlers.renderFile env fname dd cfgArg false st2).fst =
      Outcome.promise
        (FileHandlers.fetchInvoke env (dd.getD {})
          { FileHandlers.resolveRenderConfig (dd.getD {}) cfgArg with
              filename := some p } st2) := by
  refine ⟨renderSync env t d c cb st ha, ?_⟩
  rw [renderFileOk env fname dd cfgArg false st2 p hp]
  cases cfgArg with
  | fnArg => exact absurd rfl hnotfn
  | obj c2 => rw [tryDelivery]; rfl
  | absent => rw [tryDelivery]; rfl

/-- Closed instance of `c4_sync_direct` at concrete inputs. -/
theorem c4_sync_direct_witness :
    RenderTs.render Wit.env (Sum.inl "s") {} none false Wit.st0 =
      (match RenderTs.handleCache Wit.env (Sum.inl "s")
          (getConfig ((none : Option PartConfig).getD {})) Wit.st0 with
       | (Except.ok f, st1) =>
         (invokeSync (f {} (getConfig ((none : Option PartConfig).getD {}))), st1)
       | (Except.error e, st1) => (Outcome.thrown e, st1)) ∧
    (FileHandlers.renderFile Wit.env "f" (some {}) FileHandlers.ConfigArg.absent
        false Wit.st0).fst =
      Outcome.promise
        (FileHandlers.fetchInvoke Wit.env ((some ({} : DataObj)).getD {})
          { FileHandlers.resolveRenderConfig ((some ({} : DataObj)).getD {})
              FileHandlers.ConfigArg.absent with filename := some "f" } Wit.st0) :=
  c4_sync_direct Wit.env (Sum.inl "s") {} none false Wit.st0 rfl "f" (some {})
    FileHandlers.ConfigArg.absent Wit.st0 "f" (by decide) rfl

/-- C5 counterexample: with the config position absent,
`renderFileAsync` does not force `async: true` — the Compiler receives
a configuration with `async = false`, observably unlike its
synchronous-named counterpart with `async: true` forced. -/
theorem c5_counterexample :
    (FileHandlers.renderFileAsync Wit.env "f" (some {}) FileHandlers.ConfigArg.absent
        false Wit.st0).fst = Outcome.promise (Except.ok "file:f|S") ∧
    (FileHandlers.renderFile Wit.env "f" (some {})
        (FileHandlers.ConfigArg.obj { async := some true }) false Wit.st0).fst =
      Outcome.promise (Except.ok "file:f|A") ∧
    Outcome.promise (Except.ok ("file:f|S")) ≠ Outcome.promise (Except.ok ("file:f|A")) :=
  ⟨rfl, rfl, by decide⟩

/-- C5 amended: `renderAsync` always equals `render` with
`async: true` forced into the configuration; `renderFileAsync` equals
`renderFile` with `async: true` forced when the config position holds
an object (forced into the config) or a function (forced into the
data); when the config position is absent, `renderFileAsync` passes
both arguments through unchanged and async is not forced. -/
theorem c5_async_forcing
    (env : Env) (t : String ⊕ TmplFn) (d : DataObj) (c : Option PartConfig)
    (cb : Bool) (st : St) (fname : String) (dd : Option DataObj)
    (c2 : PartConfig) (cb2 : Bool) (st2 : St) :
    RenderTs.renderAsync env t d c cb st =
      RenderTs.render env t d (some { c.getD {} with async := some true }) cb st ∧
    FileHandlers.renderFileAsync env fname dd (FileHandlers.ConfigArg.obj c2) cb2 st2 =
      FileHandlers.renderFile env fname dd
        (FileHandlers.ConfigArg.obj { c2 with async := some true }) cb2 st2 ∧
    FileHandlers.renderFileAsync env fname dd FileHandlers.ConfigArg.fnArg cb2 st2 =
      FileHandlers.renderFile env fname
        (some { dd.getD {} with
                  asConfig := { (dd.getD {}).asConfig with async := some true } })
        FileHandlers.ConfigArg.fnArg cb2 st2 ∧
    FileHandlers.renderFileAsync env fname dd FileHandlers.ConfigArg.absent cb2 st2 =
      FileHandlers.renderFile env fname dd FileHandlers.ConfigArg.absent cb2 st2 :=
  ⟨rfl, rfl, rfl, rfl⟩

/-- C6: an explicitly passed configuration object wins outright over
values inferred from `data.settings` — the settings branch is skipped
entirely, so with `data.settings.views = "/x"` and explicit config
`views = "/y"` the effective views root is `"/y"`. -/
theorem c6_explicit_config_wins (d : DataObj) (s : SettingsObj) (c : PartConfig)
    (_hs : d.settings = some s) (_hv : s.views = some "/x")
    (hc : c.views = some "/y") :
    FileHandlers.resolveRenderConfig d (FileHandlers.ConfigArg.obj c) = getConfig c ∧
    (FileHandlers.resolveRenderConfig d (FileHandlers.ConfigArg.obj c)).views =
      some "/y" := by
  refine ⟨rfl, ?_⟩
  show (getConfig c).views = some "/y"
  simp [getConfig, applyPartial, hc]

/-- Closed instance of `c6_explicit_config_wins` at concrete inputs. -/
theorem c6_explicit_config_wins_witness :
    FileHandlers.resolveRenderConfig Wit.dViews (FileHandlers.ConfigArg.obj Wit.cViews) =
      getConfig Wit.cViews ∧
    (FileHandlers.resolveRenderConfig Wit.dViews
        (FileHandlers.ConfigArg.obj Wit.cViews)).views = some "/y" :=
  c6_explicit_config_wins Wit.dViews { views := some "/x" } Wit.cViews rfl rfl rfl

/-- Any `render` with caching disabled in the effective configuration
leaves the cache untouched and invokes the Compiler exactly once. -/
theorem renderNoCacheState (env : Env) (s : String) (d : DataObj)
    (c : Option PartConfig) (cb : Bool) (st : St)
    (hc : (getConfig (c.getD {})).cache = false) :
    (RenderTs.render env (Sum.inl s) d c cb st).snd = st.bump := by
  have h : ((getConfig (c.getD {})).cache &&
      optStrTruthy (getConfig (c.getD {})).name) = false := by
    simp [hc]
  have hsc := strNoCacheKey env s (getConfig (c.getD {})) st h
  unfold RenderTs.render
  cases hres : env.compile s (getConfig (c.getD {})) with
  | error e =>
    cases h2 : (getConfig (c.getD {})).async <;> cases cb <;> simp [hsc, hres, h2]
  | ok f =>
    cases h2 : (getConfig (c.getD {})).async <;> cases cb <;>
      cases hinv : f d (getConfig (c.getD {})) <;> simp [hsc, hres, h2, hinv]

/-- N successive renders with caching disabled bump the compile count
by exactly N and leave the cache untouched. -/
theorem renderN_noCache (env : Env) (s : String) (d : DataObj)
    (c : Option PartConfig) (cb : Bool) (N : Nat) (st : St)
    (hc : (getConfig (c.getD {})).cache = false) :
    RenderTs.renderN env (Sum.inl s) d c cb N st =
      { st with compiles := st.compiles + N } := by
  induction N generalizing st with
  | zero => simp [RenderTs.renderN]
  | succ n ih =>
    unfold RenderTs.renderN
    rw [renderNoCacheState env s d c cb st hc, ih]
    simp [St.bump, St.mk.injEq]
    omega

/-- With `noCache = true`, `loadFile` never registers anything. -/
theorem loadFileTrueState (env : Env) (fp : String) (p : PartConfig) (st : St) :
    ((FileHandlers.loadFile env fp p true st).snd).templates = st.templates := by
  unfold FileHandlers.loadFile
  cases hr : env.readFile fp with
  | error e => simp [hr]
  | ok t => cases hcmp : env.compile t (getConfig p) <;> simp [hr, hcmp, St.bump]

/-- C7: with caching disabled, every render of the same key compiles
fresh and registers nothing — N string renders bump the Compiler spy
by exactly N with the cache untouched; the string `handleCache`
compiles unconditionally, and the file `handleCache` delegates to
`loadFile` with `noCache = true`, which never registers. -/
theorem c7_no_cache_fresh
    (env : Env) (s : String) (d : DataObj) (c : Option PartConfig) (cb : Bool)
    (N : Nat) (st : St)
    (hc : (getConfig (c.getD {})).cache = false) :
    RenderTs.renderN env (Sum.inl s) d c cb N st =
      { st with compiles := st.compiles + N } ∧
    RenderTs.handleCache env (Sum.inl s) (getConfig (c.getD {})) st =
      (env.compile s (getConfig (c.getD {})), st.bump) ∧
    (∀ optsF st2, optsF.cache = false →
      FileHandlers.handleCache env optsF st2 =
        FileHandlers.loadFile env (optsF.filename.getD "") optsF.toPartial true st2) ∧
    (∀ fp p st2, ((FileHandlers.loadFile env fp p true st2).snd).templates =
      st2.templates) := by
  refine ⟨renderN_noCache env s d c cb N st hc,
    strNoCacheKey env s (getConfig (c.getD {})) st (by simp [hc]), ?_, ?_⟩
  · intro optsF st2 h1
    exact fileOff env optsF st2 h1
  · intro fp p st2
    exact loadFileTrueState env fp p st2

/-- Closed instance of `c7_no_cache_fresh` at concrete inputs. -/
theorem c7_no_cache_fresh_witness :
    RenderTs.renderN Wit.env (Sum.inl "s") {} none false 3 Wit.st0 =
      { Wit.st0 with compiles := Wit.st0.compiles + 3 } ∧
    RenderTs.handleCache Wit.env (Sum.inl "s")
        (getConfig ((none : Option PartConfig).getD {})) Wit.st0 =
      (Wit.env.compile "s" (getConfig ((none : Option PartConfig).getD {})),
       Wit.st0.bump) ∧
    (∀ optsF st2, optsF.cache = false →
      FileHandlers.handleCache Wit.env optsF st2 =
        FileHandlers.loadFile Wit.env (optsF.filename.getD "") optsF.toPartial
          true st2) ∧
    (∀ fp p st2, ((FileHandlers.loadFile Wit.env fp p true st2).snd).templates =
      st2.templates) :=
  c7_no_cache_fresh Wit.env "s" {} none false 3 Wit.st0 rfl

/-- C8: when the Compiler fails inside `loadFile`, the raised error is
a single `EtaErr` whose message wraps the cause as
`Loading file: <path> failed:` followed by a blank line and the
underlying message. -/
theorem c8_compile_error_wrapped
    (env : Env) (fp : String) (p : PartConfig) (noCache : Bool) (st : St)
    (t : String) (e : Err)
    (hr : env.readFile fp = Except.ok t)
    (hcmp : env.compile t (getConfig p) = Except.error e) :
    FileHandlers.loadFile env fp p noCache st =
      (Except.error ⟨"Loading file: " ++ fp ++ " failed:\n\n" ++ e.msg⟩, st.bump) :=
  loadFileCompileErr env fp p noCache st t e hr hcmp

/-- Closed instance of `c8_compile_error_wrapped` at concrete inputs. -/
theorem c8_compile_error_wrapped_witness :
    FileHandlers.loadFile Wit.badCompileEnv "f" {} false Wit.st0 =
      (Except.error ⟨"Loading file: f failed:\n\nsyntax error"⟩, Wit.st0.bump) :=
  c8_compile_error_wrapped Wit.badCompileEnv "f" {} false Wit.st0 "file:f"
    ⟨"syntax error"⟩ rfl rfl

/-- C9: an absent data argument to `renderFile` is replaced by the
empty mapping before any field access — every call with `data` absent
behaves exactly as the same call with an empty data object. -/
theorem c9_default_data (env : Env) (fname : String)
    (cfgArg : FileHandlers.ConfigArg) (cb : Bool) (st : St) :
    FileHandlers.renderFile env fname none cfgArg cb st =
      FileHandlers.renderFile env fname (some {}) cfgArg cb st := rfl

/-- C10 counterexample: with caching enabled and the name already
registered, `render` with a precompiled Template Function invokes the
cached function, not the supplied one — against the claim's "render
invokes it directly" for every such function. -/
theorem c10_counterexample :
    (RenderTs.render Wit.env (Sum.inr Wit.suppliedFn) {} (some Wit.cfgK) false
        Wit.stK).fst = Outcome.returned "cached" ∧
    (RenderTs.render Wit.env (Sum.inr Wit.suppliedFn) {} (some Wit.cfgK) false
        Wit.stK).fst ≠ Outcome.returned "supplied" :=
  ⟨rfl, by decide⟩

/-- C10 amended: `render` accepts a precompiled Template Function; the
Compiler is never invoked for it; provided no entry is already
registered under the (truthy) name with caching on, the supplied
function itself is returned — registered under `options.name` exactly
when caching is enabled and the name truthy — and a synchronous render
invokes it directly; when an entry is already registered, the cached
function wins (per C1). -/
theorem c10_precompiled
    (env : Env) (opts : EtaConfig) (st : St) (fn : TmplFn)
    (d : DataObj) (c : Option PartConfig)
    (hcfg : getConfig (c.getD {}) = opts) (ha : opts.async = false)
    (hmiss : (opts.cache && optStrTruthy opts.name) = true →
      st.templates.get (opts.name.getD "") = none) :
    (∀ st2, ((RenderTs.handleCache env (Sum.inr fn) opts st2).snd).compiles =
      st2.compiles) ∧
    RenderTs.handleCache env (Sum.inr fn) opts st =
      (Except.ok fn,
       if opts.cache && optStrTruthy opts.name then
         { st with templates := st.templates.define (opts.name.getD "") fn }
       else st) ∧
    (RenderTs.render env (Sum.inr fn) d c false st).fst = invokeSync (fn d opts) := by
  have hmain : RenderTs.handleCache env (Sum.inr fn) opts st =
      (Except.ok fn,
       if opts.cache && optStrTruthy opts.name then
         { st with templates := st.templates.define (opts.name.getD "") fn }
       else st) := by
    cases hB : (opts.cache && optStrTruthy opts.name) with
    | false => rw [strFnNoCacheKey env fn opts st hB]; simp
    | true =>
      have hB2 := hB
      rw [Bool.and_eq_true] at hB2
      obtain ⟨h1, h2⟩ := hB2
      rw [strFnRegister env fn opts st h1 h2 (hmiss hB)]
      simp
  have hcomp : ∀ st2 : St,
      ((RenderTs.handleCache env (Sum.inr fn) opts st2).snd).compiles =
        st2.compiles := by
    intro st2
    cases hB : (opts.cache && optStrTruthy opts.name) with
    | false => rw [strFnNoCacheKey env fn opts st2 hB]
    | true =>
      have hB2 := hB
      rw [Bool.and_eq_true] at hB2
      obtain ⟨h1, h2⟩ := hB2
      cases hget : st2.templates.get (opts.name.getD "") with
      | some f => rw [strHit env (Sum.inr fn) opts st2 f h1 h2 hget]
      | none => rw [strFnRegister env fn opts st2 h1 h2 hget]
  refine ⟨hcomp, hmain, ?_⟩
  rw [renderSync env (Sum.inr fn) d c false st (by rw [hcfg]; exact ha), hcfg, hmain]

/-- Closed instance of `c10_precompiled` at concrete inputs. -/
theorem c10_precompiled_witness :
    (∀ st2, ((RenderTs.handleCache Wit.env (Sum.inr Wit.suppliedFn)
        (getConfig Wit.cfgK) st2).snd).compiles = st2.compiles) ∧
    RenderTs.handleCache Wit.env (Sum.inr Wit.suppliedFn) (getConfig Wit.cfgK)
        Wit.st0 =
      (Except.ok Wit.suppliedFn,
       if (getConfig Wit.cfgK).cache && optStrTruthy (getConfig Wit.cfgK).name then
         { Wit.st0 with
             templates :=
               Wit.st0.templates.define ((getConfig Wit.cfgK).name.getD "")
                 Wit.suppliedFn }
       else Wit.st0) ∧
    (RenderTs.render Wit.env (Sum.inr Wit.suppliedFn) {} (some Wit.cfgK) false
        Wit.st0).fst = invokeSync (Wit.suppliedFn {} (getConfig Wit.cfgK)) :=
  c10_precompiled Wit.env (getConfig Wit.cfgK) Wit.st0 Wit.suppliedFn {}
    (some Wit.cfgK) rfl rfl (fun _ => rfl)

end Eta
